import Mathlib

/-!
Verification of the SIBOLTECH automation controller (src/automation.py)
against its natural-language specification.

Modelling conventions:
* Python floats (sensor values, wall-clock times) are modelled as exact
  rationals `ℚ`; `time.time()` is passed explicitly as a `now : ℚ`
  parameter to every function that reads the clock, and
  `datetime.now().hour` as an `hour : Nat` parameter.
* The float test `std > 0 and abs(value - mean) > 3 * std` of
  `SensorFilter.add` is modelled by the equivalent square-free test
  `0 < var ∧ 9 * var < (value - mean)^2`, where `var` is the population
  variance, since `std = sqrt var` and both sides of the comparison are
  nonnegative.
* `collections.deque(maxlen=w)` is a list, oldest first; appending past
  capacity drops from the front.
* The actuator-driver callback is modelled by its observable trace: each
  invocation `callback(relay_id, state)` is recorded as an event
  `(relay_id, state)`.  A `Fails` oracle says which invocations raise; a
  raising invocation aborts the rest of the computation up to the
  enclosing `try/except` (Python exception semantics), which is exactly
  the semantics of the `Out.ok` flag threaded below.
-/

namespace Siboltech

/-! ## Configuration constants (src/automation.py lines 31-73) -/

def FILTER_WINDOW_SIZE : Nat := 10
def DEBOUNCE_TIME : ℚ := 5
def DO_LOW : ℚ := 7
def DO_HIGH : ℚ := 8.5
def TEMP_DAY_HIGH : ℚ := 26
def TEMP_DAY_LOW : ℚ := 23
def TEMP_NIGHT_HIGH : ℚ := 22
def TEMP_NIGHT_LOW : ℚ := 19
def HUMIDITY_HIGH : ℚ := 70
def PH_LOW : ℚ := 5.5
def PH_HIGH : ℚ := 7
def PH_DOSE_TIME : ℚ := 2
def PH_COOLDOWN : ℚ := 30
def TDS_LOW : ℚ := 675
def TDS_HIGH : ℚ := 800
def TDS_DOSE_ON : ℚ := 2
def TDS_DOSE_OFF : ℚ := 30
def MISTING_ON : ℚ := 5
def MISTING_OFF : ℚ := 15 * 60
def LIGHTS_ON_HOUR : Nat := 6
def LIGHTS_OFF_HOUR : Nat := 18

/-! ## SensorFilter (src/automation.py lines 76-111) -/

/-- Arithmetic mean used inline in `SensorFilter.add`:
`sum(self.values) / len(self.values)`. -/
def listMean (l : List ℚ) : ℚ := l.sum / l.length

/-- Population variance used inline in `SensorFilter.add`:
`sum((x - mean) ** 2 for x in self.values) / len(self.values)`
(the code then takes `** 0.5` to get `std`; we keep the square). -/
def listVar (l : List ℚ) : ℚ :=
  (l.map (fun x => (x - listMean l) ^ 2)).sum / l.length

/-- Moving average filter with outlier rejection (`class SensorFilter`). -/
structure SensorFilter where
  window_size : Nat
  values : List ℚ
  deriving DecidableEq, Repr

/-- A fresh filter (`SensorFilter.__init__`): empty bounded history. -/
def SensorFilter.init (w : Nat := FILTER_WINDOW_SIZE) : SensorFilter :=
  ⟨w, []⟩

/-- `self.values.append(value)` on a `deque(maxlen=window_size)`:
append on the right, evicting the oldest (leftmost) entries beyond
capacity. -/
def SensorFilter.push (f : SensorFilter) (v : ℚ) : SensorFilter :=
  let l := f.values ++ [v]
  { f with values := if f.window_size < l.length then l.drop (l.length - f.window_size) else l }

/-- `SensorFilter.get`: current filtered value, `0.0` when empty. -/
def SensorFilter.get (f : SensorFilter) : ℚ :=
  if f.values = [] then 0 else f.values.sum / f.values.length

/-- `SensorFilter.add`: reject negative samples; once at least 3 samples
are held, reject samples more than 3 standard deviations from the mean
(guarded by `std > 0`); otherwise append.  Returns the updated filter and
the returned mean. -/
def SensorFilter.add (f : SensorFilter) (v : ℚ) : SensorFilter × ℚ :=
  if v < 0 then (f, f.get)
  else if 3 ≤ f.values.length ∧ 0 < listVar f.values ∧
      9 * listVar f.values < (v - listMean f.values) ^ 2 then (f, f.get)
  else
    let f' := f.push v
    (f', f'.get)

/-- `SensorFilter.ready`: at least `window_size // 2` samples held. -/
def SensorFilter.ready (f : SensorFilter) : Bool :=
  decide (f.window_size / 2 ≤ f.values.length)

/-- `SensorFilter.fast_ready`: at least 2 samples held. -/
def SensorFilter.fast_ready (f : SensorFilter) : Bool :=
  decide (2 ≤ f.values.length)

/-- Fold `add` over a list of incoming samples, keeping the filter. -/
def SensorFilter.addAll (f : SensorFilter) (vs : List ℚ) : SensorFilter :=
  vs.foldl (fun g v => (g.add v).1) f

/-! ## RelayState (src/automation.py lines 114-137) -/

/-- Per-relay debounced state holder (`class RelayState`).  `state = none`
models Python `None` ("unknown"), used after an override-mode exit. -/
structure RelayState where
  relay_id : Nat
  state : Option Bool
  last_change : ℚ
  deriving DecidableEq, Repr

/-- `RelayState.can_change`: the debounce window has elapsed. -/
def RelayState.can_change (rs : RelayState) (now : ℚ) : Bool :=
  decide (DEBOUNCE_TIME ≤ now - rs.last_change)

/-- `RelayState.set`: commit `desired` unless (not forced and) the state
is already `desired`, or (not forced,) the state is known and the
debounce window has not elapsed.  Returns the new holder and whether the
state was changed. -/
def RelayState.set (rs : RelayState) (desired : Bool) (force : Bool) (now : ℚ) :
    RelayState × Bool :=
  if rs.state = some desired ∧ force = false then (rs, false)
  else if force = false ∧ rs.state ≠ none ∧ rs.can_change now = false then (rs, false)
  else ({ rs with state := some desired, last_change := now }, true)

/-- Modelled from the spec's words (§4.2), for comparison with
`RelayState.set`: "a no-op if desired equals the current known state and
not forced, or the state is known and canChange() is false and not
forced; otherwise — and always when forced — commit the new state and
record the change timestamp". -/
def RelayState.specSet (rs : RelayState) (desired : Bool) (force : Bool) (now : ℚ) :
    RelayState × Bool :=
  if force = true ∨ rs.state = none ∨ (rs.state ≠ some desired ∧ rs.can_change now = true)
  then ({ rs with state := some desired, last_change := now }, true)
  else (rs, false)

/-! ## Theorems: SensorFilter and RelayState claims -/

/-- A filter holding three identical samples: its standard deviation is 0. -/
def c2filter : SensorFilter := ⟨10, [5, 5, 5]⟩

/-- C2 (counterexample): with history `[5, 5, 5]` (≥3 samples, standard
deviation zero) the sample 100 deviates from the mean by more than 3
standard deviations, yet `add` accepts it into the history and changes
the returned mean — the `std > 0` guard in the code disables outlier
rejection when all held samples are equal, contradicting the claim. -/
theorem sensorFilter_std_zero_outlier_accepted :
    3 ≤ c2filter.values.length ∧
    9 * listVar c2filter.values < ((100 : ℚ) - listMean c2filter.values) ^ 2 ∧
    (c2filter.add 100).1.values = [5, 5, 5, 100] ∧
    (c2filter.add 100).2 ≠ c2filter.get := by
  with_unfolding_all decide

/-- C2 (amended): for a filter holding at least 3 samples with positive
sample variance, a sample deviating from the mean by more than 3 standard
deviations is discarded (history unchanged, unchanged mean returned);
a negative sample is always a no-op.  (When the standard deviation is
zero, any non-negative sample is accepted regardless of deviation.) -/
theorem sensorFilter_outlier_and_negative_noop :
    (∀ (f : SensorFilter) (v : ℚ), 3 ≤ f.values.length → 0 < listVar f.values →
      9 * listVar f.values < (v - listMean f.values) ^ 2 → f.add v = (f, f.get)) ∧
    (∀ (f : SensorFilter) (v : ℚ), v < 0 → f.add v = (f, f.get)) := by
  constructor
  · intro f v h3 hvar hdev
    unfold SensorFilter.add
    split
    · rfl
    · rw [if_pos ⟨h3, hvar, hdev⟩]
  · intro f v hneg
    unfold SensorFilter.add
    rw [if_pos hneg]

/-- C2 (witness): concrete instance of the amended theorem, at the filter
`⟨10, [0, 0, 3]⟩` (variance 2) with the outlier 100 and with `-1`. -/
theorem sensorFilter_outlier_and_negative_noop_witness :
    (SensorFilter.mk 10 [0, 0, 3]).add 100 = (SensorFilter.mk 10 [0, 0, 3], 1) ∧
    (SensorFilter.mk 10 [0, 0, 3]).add (-1) = (SensorFilter.mk 10 [0, 0, 3], 1) := by
  constructor
  · have h := sensorFilter_outlier_and_negative_noop.1 (SensorFilter.mk 10 [0, 0, 3]) 100
      (by with_unfolding_all decide) (by with_unfolding_all decide)
      (by with_unfolding_all decide)
    rw [h]; with_unfolding_all decide
  · have h := sensorFilter_outlier_and_negative_noop.2 (SensorFilter.mk 10 [0, 0, 3]) (-1)
      (by with_unfolding_all decide)
    rw [h]; with_unfolding_all decide

/-- C6: `RelayState.set` satisfies the spec's contract word for word:
unchanged (state and timestamp untouched) iff not forced and either the
desired state equals the current known state or the state is known with
the debounce window still open; otherwise — in particular always when
forced — it commits, records the timestamp, and reports "changed". -/
theorem relayState_set_spec :
    ∀ (rs : RelayState) (desired force : Bool) (now : ℚ),
      rs.set desired force now = rs.specSet desired force now := by
  intro rs desired force now
  unfold RelayState.set RelayState.specSet
  rcases hs : rs.state with _ | b
  · cases force <;> simp [hs]
  · cases force <;> cases hc : rs.can_change now <;>
      by_cases hb : b = desired <;> simp [hs, hb, hc]

/-- Invariant carried through `SensorFilter.addAll`: bounded length,
non-negative retained samples, unchanged capacity. -/
theorem sensorFilter_add_preserves (f : SensorFilter) (v : ℚ)
    (hlen : f.values.length ≤ f.window_size) (hpos : ∀ x ∈ f.values, 0 ≤ x) :
    (f.add v).1.values.length ≤ f.window_size ∧
    (∀ x ∈ (f.add v).1.values, 0 ≤ x) ∧
    (f.add v).1.window_size = f.window_size := by
  unfold SensorFilter.add
  split
  · exact ⟨hlen, hpos, rfl⟩
  · split
    · exact ⟨hlen, hpos, rfl⟩
    · rename_i hv _
      push_neg at hv
      refine ⟨?_, ?_, rfl⟩
      · dsimp only [SensorFilter.push]
        split
        · simp only [List.length_drop]
          omega
        · rename_i hle
          push_neg at hle
          exact hle
      · intro x hx
        dsimp only [SensorFilter.push] at hx
        split at hx
        · have hx' := List.mem_of_mem_drop hx
          rcases List.mem_append.1 hx' with h | h
          · exact hpos x h
          · simp only [List.mem_singleton] at h
            exact h ▸ hv
        · rcases List.mem_append.1 hx with h | h
          · exact hpos x h
          · simp only [List.mem_singleton] at h
            exact h ▸ hv

/-- C10: after any sequence of `add` calls starting from a fresh filter,
the history holds at most `window_size` samples, every retained sample is
non-negative, and `get` returns a non-negative value (0 when the history
is empty); moreover each accepting `add` keeps a suffix of the old
history with the new sample appended (the oldest samples are the ones
evicted). -/
theorem sensorFilter_invariant :
    (∀ (w : Nat) (vs : List ℚ),
      ((SensorFilter.init w).addAll vs).values.length ≤ w ∧
      (∀ x ∈ ((SensorFilter.init w).addAll vs).values, 0 ≤ x) ∧
      0 ≤ ((SensorFilter.init w).addAll vs).get ∧
      (((SensorFilter.init w).addAll vs).values = [] →
        ((SensorFilter.init w).addAll vs).get = 0)) ∧
    (∀ (f : SensorFilter) (v : ℚ),
      ((f.add v).1.values).IsSuffix (f.values ++ [v]) ∨ (f.add v).1 = f) := by
  constructor
  · intro w vs
    suffices h : ∀ (f : SensorFilter), f.values.length ≤ f.window_size →
        (∀ x ∈ f.values, 0 ≤ x) → f.window_size = w →
        (f.addAll vs).values.length ≤ w ∧ (∀ x ∈ (f.addAll vs).values, 0 ≤ x) ∧
        0 ≤ (f.addAll vs).get ∧ ((f.addAll vs).values = [] → (f.addAll vs).get = 0) by
      exact h (SensorFilter.init w) (by simp [SensorFilter.init])
        (by simp [SensorFilter.init]) rfl
    induction vs with
    | nil =>
      intro f hlen hpos hw
      refine ⟨hw ▸ hlen, hpos, ?_, ?_⟩
      · show 0 ≤ f.get
        unfold SensorFilter.get
        split
        · exact le_refl 0
        · exact div_nonneg (List.sum_nonneg hpos) (Nat.cast_nonneg _)
      · intro h
        simp only [SensorFilter.addAll, List.foldl_nil] at h ⊢
        simp [SensorFilter.get, h]
    | cons v vs ih =>
      intro f hlen hpos hw
      have hstep := sensorFilter_add_preserves f v hlen hpos
      have := ih (f.add v).1 (hstep.2.2 ▸ hstep.1) hstep.2.1 (hstep.2.2.trans hw)
      simpa [SensorFilter.addAll] using this
  · intro f v
    unfold SensorFilter.add
    split
    · right; rfl
    · split
      · right; rfl
      · left
        dsimp only [SensorFilter.push]
        split
        · exact List.drop_suffix _ _
        · exact List.suffix_refl _

/-! ## Relay identifiers (`RELAY` map, src/automation.py lines 19-29) -/

/-- The nine relay channels, by the names used in the `RELAY` dict. -/
inductive RName where
  | LEAFY_GREEN
  | PH_DOWN
  | PH_UP
  | MISTING
  | EXHAUST_OUT
  | GROW_LIGHTS_AERO
  | AIR_PUMP
  | GROW_LIGHTS_DWC
  | EXHAUST_IN
  deriving DecidableEq, Repr

/-- Relay channel numbers (`RELAY` dict values). -/
def RName.rid : RName → Nat
  | .LEAFY_GREEN => 1
  | .PH_DOWN => 2
  | .PH_UP => 3
  | .MISTING => 4
  | .EXHAUST_OUT => 5
  | .GROW_LIGHTS_AERO => 6
  | .AIR_PUMP => 7
  | .GROW_LIGHTS_DWC => 8
  | .EXHAUST_IN => 9

/-- Python dict insertion/iteration order of `RELAY` (and hence of
`self.relays.items()` in `_enforce_relay_states`). -/
def relayOrder : List RName :=
  [.LEAFY_GREEN, .PH_DOWN, .PH_UP, .MISTING, .EXHAUST_OUT,
   .GROW_LIGHTS_AERO, .AIR_PUMP, .GROW_LIGHTS_DWC, .EXHAUST_IN]

/-- Python truthiness of the nullable boolean `relay.state`
(`None` and `False` are falsy). -/
def truthy (o : Option Bool) : Bool := o.getD false

/-! ## AutomationController state (src/automation.py lines 140-178) -/

/-- Mutable state of `AutomationController`: the five sensor filters,
the nine relay holders, the pulse timers, the override flag and the
enforcement timestamp.  (The `do` filter is called `dof` because `do` is
a reserved word in Lean.) -/
structure Controller where
  override_mode : Bool
  temperature : SensorFilter
  humidity : SensorFilter
  ph : SensorFilter
  dof : SensorFilter
  tds : SensorFilter
  relays : RName → RelayState
  misting_last_on : ℚ
  misting_last_off : ℚ
  tds_dosing_active : Bool
  tds_dose_last_on : ℚ
  tds_dose_last_off : ℚ
  ph_dosing_until : ℚ
  last_enforce : ℚ

/-- `_ENFORCE_INTERVAL` (src/automation.py line 174). -/
def ENFORCE_INTERVAL : ℚ := 10

/-- `AutomationController.__init__`: empty filters, all relays known OFF
with zeroed debounce timers, all pulse timers zero, override off. -/
def Controller.init : Controller where
  override_mode := false
  temperature := SensorFilter.init
  humidity := SensorFilter.init
  ph := SensorFilter.init
  dof := SensorFilter.init
  tds := SensorFilter.init
  relays := fun r => ⟨r.rid, some false, 0⟩
  misting_last_on := 0
  misting_last_off := 0
  tds_dosing_active := false
  tds_dose_last_on := 0
  tds_dose_last_off := 0
  ph_dosing_until := 0
  last_enforce := 0

/-! ## Callback trace semantics

Each invocation of the actuator-driver callback is an event
`(relay_id, state)`.  A `Fails` oracle decides which invocations raise;
per Python exception semantics a raising call aborts everything up to
the enclosing `try/except`, which is the `ok` flag of `Out`. -/

/-- One callback invocation: `(relay_id, commanded state)`. -/
abbrev Ev := Nat × Bool

/-- Which callback invocations raise an exception. -/
abbrev Fails := Nat → Bool → Bool

/-- The callback never raises. -/
def noFail : Fails := fun _ _ => false

/-- Result of a (possibly aborted) computation: the controller state
reached, the callback invocations made so far, and whether it completed
without an exception. -/
structure Out where
  st : Controller
  evs : List Ev
  ok : Bool

/-- A statement with no callback activity. -/
def Out.pure (st : Controller) : Out := ⟨st, [], true⟩

/-- Python sequencing: run `f` only if no exception is pending; state
mutations made before an exception persist. -/
def Out.bind (o : Out) (f : Controller → Out) : Out :=
  if o.ok then
    let o2 := f o.st
    ⟨o2.st, o.evs ++ o2.evs, o2.ok⟩
  else o

/-- A sensor-feed message: any subset of the five known keys
(`update_sensors`, src/automation.py lines 214-225). -/
structure Readings where
  temperature_c : Option ℚ := none
  humidity : Option ℚ := none
  ph : Option ℚ := none
  do_mg_l : Option ℚ := none
  tds_ppm : Option ℚ := none

/-- `AutomationController.update_sensors`: feed each present key into
its filter. -/
def Controller.updateSensors (st : Controller) (r : Readings) : Controller :=
  let s1 := match r.temperature_c with
    | some v => { st with temperature := (st.temperature.add v).1 }
    | none => st
  let s2 := match r.humidity with
    | some v => { s1 with humidity := (s1.humidity.add v).1 }
    | none => s1
  let s3 := match r.ph with
    | some v => { s2 with ph := (s2.ph.add v).1 }
    | none => s2
  let s4 := match r.do_mg_l with
    | some v => { s3 with dof := (s3.dof.add v).1 }
    | none => s3
  match r.tds_ppm with
    | some v => { s4 with tds := (s4.tds.add v).1 }
    | none => s4

/-- `AutomationController._set_relay`: commit through `RelayState.set`
and, exactly when the state changed, invoke the driver callback with
`(relay_id, state)`.  (The `state is None` guard in the code is
unreachable: every call site passes a boolean.) -/
def setRelay (fails : Fails) (now : ℚ) (name : RName) (desired force : Bool)
    (st : Controller) : Out :=
  let p := (st.relays name).set desired force now
  let st' := { st with relays := Function.update st.relays name p.1 }
  if p.2 then ⟨st', [(name.rid, desired)], !(fails name.rid desired)⟩
  else ⟨st', [], true⟩

/-- `AutomationController._is_daytime`: 6am-6pm. -/
def isDaytime (hour : Nat) : Bool :=
  decide (LIGHTS_ON_HOUR ≤ hour ∧ hour < LIGHTS_OFF_HOUR)

/-! ## The rule blocks of `_process_automation` (src/automation.py 266-416) -/

/-- `_process_misting` (lines 365-384): 5s ON / 15min OFF duty cycle,
forced transitions; unknown state initializes to OFF keeping timers. -/
def mistingBlock (fails : Fails) (now : ℚ) (st : Controller) : Out :=
  match (st.relays .MISTING).state with
  | none => setRelay fails now .MISTING false true st
  | some true =>
      if MISTING_ON ≤ now - st.misting_last_on then
        (setRelay fails now .MISTING false true st).bind
          (fun s => .pure { s with misting_last_off := now })
      else .pure st
  | some false =>
      if MISTING_OFF ≤ now - st.misting_last_off then
        (setRelay fails now .MISTING true true st).bind
          (fun s => .pure { s with misting_last_on := now })
      else .pure st

/-- Air pump rule (lines 289-295): DO hysteresis gated on `fast_ready`. -/
def airPumpBlock (fails : Fails) (now : ℚ) (st : Controller) : Out :=
  if st.dof.fast_ready then
    if st.dof.get < DO_LOW then setRelay fails now .AIR_PUMP true false st
    else if DO_HIGH ≤ st.dof.get then setRelay fails now .AIR_PUMP false false st
    else .pure st
  else .pure st

/-- The `exhaust_needed` computation of lines 302-327: seed from the
current `EXHAUST_IN` state (`bool(None) = False`), temperature hysteresis
with day/night bands, humidity can only force ON. -/
def exhaustNeeded (day tempReady humReady : Bool) (temp hum : ℚ) (seed : Bool) : Bool :=
  let n :=
    if tempReady then
      if day then
        if TEMP_DAY_HIGH < temp then true
        else if temp ≤ TEMP_DAY_LOW then false
        else seed
      else
        if TEMP_NIGHT_HIGH < temp then true
        else if temp ≤ TEMP_NIGHT_LOW then false
        else seed
    else seed
  if humReady ∧ HUMIDITY_HIGH < hum then true else n

/-- Exhaust rule (lines 297-330): gated on either filter ready; the same
`needed` value is applied to `EXHAUST_IN` and then `EXHAUST_OUT`. -/
def exhaustBlock (fails : Fails) (now : ℚ) (hour : Nat) (st : Controller) : Out :=
  if st.temperature.ready ∨ st.humidity.ready then
    let n := exhaustNeeded (isDaytime hour) st.temperature.ready st.humidity.ready
      st.temperature.get st.humidity.get (truthy (st.relays .EXHAUST_IN).state)
    (setRelay fails now .EXHAUST_IN n false st).bind
      (setRelay fails now .EXHAUST_OUT n false)
  else .pure st

/-- Grow lights rule (lines 332-335): both banks follow `_is_daytime`. -/
def lightsBlock (fails : Fails) (now : ℚ) (hour : Nat) (st : Controller) : Out :=
  (setRelay fails now .GROW_LIGHTS_AERO (isDaytime hour) false st).bind
    (setRelay fails now .GROW_LIGHTS_DWC (isDaytime hour) false)

/-- pH-up rule (lines 337-347): dose 2s when pH below 5.5 and no
dose/cooldown pending; on dose end turn OFF and add the 30s cooldown. -/
def phUpBlock (fails : Fails) (now : ℚ) (st : Controller) : Out :=
  if st.ph.ready then
    if st.ph.get < PH_LOW ∧ st.ph_dosing_until < now then
      (setRelay fails now .PH_UP true false st).bind
        (fun s => .pure { s with ph_dosing_until := now + PH_DOSE_TIME })
    else if truthy (st.relays .PH_UP).state = true ∧ st.ph_dosing_until ≤ now then
      (setRelay fails now .PH_UP false false st).bind
        (fun s => .pure { s with ph_dosing_until := now + PH_COOLDOWN })
    else if truthy (st.relays .PH_UP).state = false ∧ st.ph_dosing_until ≤ now then
      setRelay fails now .PH_UP false false st
    else .pure st
  else .pure st

/-- pH-down rule (lines 349-359): mirror image of pH-up, sharing
`ph_dosing_until`. -/
def phDownBlock (fails : Fails) (now : ℚ) (st : Controller) : Out :=
  if st.ph.ready then
    if PH_HIGH < st.ph.get ∧ st.ph_dosing_until < now then
      (setRelay fails now .PH_DOWN true false st).bind
        (fun s => .pure { s with ph_dosing_until := now + PH_DOSE_TIME })
    else if truthy (st.relays .PH_DOWN).state = true ∧ st.ph_dosing_until ≤ now then
      (setRelay fails now .PH_DOWN false false st).bind
        (fun s => .pure { s with ph_dosing_until := now + PH_COOLDOWN })
    else if truthy (st.relays .PH_DOWN).state = false ∧ st.ph_dosing_until ≤ now then
      setRelay fails now .PH_DOWN false false st
    else .pure st
  else .pure st

/-- The pulse part of `_process_tds_dosing` (lines 403-416). -/
def tdsPulse (fails : Fails) (now : ℚ) (s1 : Controller) : Out :=
  if s1.tds_dosing_active = false then .pure s1
  else if truthy (s1.relays .LEAFY_GREEN).state = true then
    if TDS_DOSE_ON ≤ now - s1.tds_dose_last_on then
      (setRelay fails now .LEAFY_GREEN false true s1).bind
        (fun s => .pure { s with tds_dose_last_off := now })
    else .pure s1
  else
    if TDS_DOSE_OFF ≤ now - s1.tds_dose_last_off then
      (setRelay fails now .LEAFY_GREEN true true s1).bind
        (fun s => .pure { s with tds_dose_last_on := now })
    else .pure s1

/-- The active-flag update and dispatch of `_process_tds_dosing`
(lines 394-404): `tds` is the snapshot taken at the top of
`_process_automation` (the TDS filter is not mutated during a pass). -/
def tdsDecide (fails : Fails) (now tds : ℚ) (s1 : Controller) : Out :=
  if tds < TDS_LOW then
    tdsPulse fails now { s1 with tds_dosing_active := true }
  else if TDS_HIGH ≤ tds then
    let s2 := { s1 with tds_dosing_active := false }
    if truthy (s2.relays .LEAFY_GREEN).state = true then
      setRelay fails now .LEAFY_GREEN false true s2
    else .pure s2
  else tdsPulse fails now s1

/-- `_process_tds_dosing` (lines 386-416), gated on the TDS filter being
ready (line 362): initialize an unknown state to OFF, then the
active-flag dispatch. -/
def tdsDosingBlock (fails : Fails) (now : ℚ) (st : Controller) : Out :=
  if st.tds.ready then
    (if (st.relays .LEAFY_GREEN).state = none then
        setRelay fails now .LEAFY_GREEN false true st
      else .pure st).bind
      (tdsDecide fails now st.tds.get)
  else .pure st

/-- `AutomationController._process_automation`: all rule blocks in
source order (misting, air pump, exhaust, grow lights, pH-up, pH-down,
TDS dosing).  The filters are never mutated during a pass, so reading
each filtered value inside its block equals the snapshot taken at the
top of the Python function. -/
def processAutomation (fails : Fails) (st : Controller) (now : ℚ) (hour : Nat) : Out :=
  (mistingBlock fails now st).bind (fun s =>
  (airPumpBlock fails now s).bind (fun s =>
  (exhaustBlock fails now hour s).bind (fun s =>
  (lightsBlock fails now hour s).bind (fun s =>
  (phUpBlock fails now s).bind (fun s =>
  (phDownBlock fails now s).bind (fun s =>
  tdsDosingBlock fails now s))))))

/-- The `for name, relay in self.relays.items()` loop of
`_enforce_relay_states`: invoke the callback for every known state. -/
def enforceGo (fails : Fails) (names : List RName) (st : Controller) : Out :=
  match names with
  | [] => .pure st
  | r :: rest =>
      match (st.relays r).state with
      | some b => (Out.mk st [(r.rid, b)] (!(fails r.rid b))).bind (enforceGo fails rest)
      | none => enforceGo fails rest st

/-- `AutomationController._enforce_relay_states` (lines 254-264). -/
def enforceRelayStates (fails : Fails) (st : Controller) (now : ℚ) : Out :=
  if now - st.last_enforce < ENFORCE_INTERVAL then .pure st
  else enforceGo fails relayOrder { st with last_enforce := now }

/-- One iteration of `AutomationController._loop` (lines 242-252): when
override mode is off, run the rule pass then periodic enforcement inside
a `try/except` that logs and swallows any exception. -/
def loopTick (fails : Fails) (st : Controller) (now : ℚ) (hour : Nat) :
    Controller × List Ev :=
  if st.override_mode then (st, [])
  else
    let o := (processAutomation fails st now hour).bind
      (fun s => enforceRelayStates fails s now)
    (o.st, o.evs)

/-- `AutomationController.set_override` (lines 196-212): on the
true-to-false transition, reset every relay to unknown with a zeroed
debounce timer and immediately run one rule pass (its exceptions are
swallowed). -/
def setOverride (fails : Fails) (st : Controller) (v : Bool) (now : ℚ) (hour : Nat) :
    Controller × List Ev :=
  let was := st.override_mode
  let st1 := { st with override_mode := v }
  if was = true ∧ v = false then
    let st2 := { st1 with
      relays := fun r => { st1.relays r with state := none, last_change := 0 } }
    let o := processAutomation fails st2 now hour
    (o.st, o.evs)
  else (st1, [])

/-! ## The api.py layer (src/api.py lines 845-871)

`RELAY_STATES` is the external relay-state mirror; the registered driver
callback `_automation_relay_callback` drops the write when either
`OVERRIDE_MODE_ENABLED` or `CALIBRATION_MODE_ENABLED` is set. -/

/-- `_automation_relay_callback` applied to one invocation. -/
def applyRelayCallback (override calib : Bool) (m : Nat → Bool) (e : Ev) : Nat → Bool :=
  if override ∨ calib then m else Function.update m e.1 e.2

/-- One controller tick observed at the api layer: the controller's loop
iteration followed by the effect of its callback invocations on
`RELAY_STATES`.  The api override flag mirrors the controller's
(`set_override_mode` keeps them in sync); `calib` is
`CALIBRATION_MODE_ENABLED`, which the calibration-mode endpoint never
forwards to the controller. -/
def systemTick (calib : Bool) (st : Controller) (m : Nat → Bool) (now : ℚ) (hour : Nat) :
    Controller × (Nat → Bool) :=
  let r := loopTick noFail st now hour
  (r.1, r.2.foldl (applyRelayCallback st.override_mode calib) m)

/-! ## Concrete reachable states and traces -/

/-- Feed a list of sensor messages into the controller. -/
def feed (st : Controller) (rs : List Readings) : Controller :=
  rs.foldl Controller.updateSensors st

/-- Run the loop at the given tick times (`_loop` sleeps at least 1s
between ticks but guarantees no upper bound on the gap). -/
def runTicks (hour : Nat) (st : Controller) (ts : List ℚ) : Controller :=
  ts.foldl (fun s t => (loopTick noFail s t hour).1) st

/-- A controller that has received five pH samples of 5.0: the pH filter
is ready with mean 5.0, all other filters are empty. -/
def phReadyLow : Controller :=
  feed Controller.init (List.replicate 5 { ph := some 5 })

/-! ## Structural lemmas about the trace semantics -/

theorem Out.pure_st (st : Controller) : (Out.pure st).st = st := rfl

theorem Out.pure_ok (st : Controller) : (Out.pure st).ok = true := rfl

theorem Out.pure_evs (st : Controller) : (Out.pure st).evs = [] := rfl

theorem Out.bind_st (o : Out) (f : Controller → Out) :
    (o.bind f).st = if o.ok then (f o.st).st else o.st := by
  unfold Out.bind; split <;> rfl

theorem Out.bind_evs (o : Out) (f : Controller → Out) :
    (o.bind f).evs = if o.ok then o.evs ++ (f o.st).evs else o.evs := by
  unfold Out.bind; split <;> rfl

theorem Out.bind_ok (o : Out) (f : Controller → Out) :
    (o.bind f).ok = if o.ok then (f o.st).ok else false := by
  unfold Out.bind; split <;> simp_all

/-- The state reached by `_set_relay` does not depend on whether the
callback raises: the commit happens before the callback. -/
theorem setRelay_st (fails : Fails) (now : ℚ) (n : RName) (d f : Bool) (st : Controller) :
    (setRelay fails now n d f st).st =
      { st with relays := Function.update st.relays n ((st.relays n).set d f now).1 } := by
  unfold setRelay; dsimp only; split <;> rfl

theorem setRelay_evs (fails : Fails) (now : ℚ) (n : RName) (d f : Bool) (st : Controller) :
    (setRelay fails now n d f st).evs = [] ∨
    (setRelay fails now n d f st).evs = [(n.rid, d)] := by
  unfold setRelay; dsimp only; split
  · right; rfl
  · left; rfl

theorem setRelay_ok_noFail (now : ℚ) (n : RName) (d f : Bool) (st : Controller) :
    (setRelay noFail now n d f st).ok = true := by
  unfold setRelay; dsimp only; split <;> rfl

/-- C10 (witness): concrete instance — a window-2 filter fed
`[1, -3, 2, 4]` retains `[2, 4]` (negative rejected, oldest evicted) and
`get` is non-negative. -/
theorem sensorFilter_invariant_witness :
    ((SensorFilter.init 2).addAll [1, -3, 2, 4]).values.length ≤ 2 ∧
    0 ≤ ((SensorFilter.init 2).addAll [1, -3, 2, 4]).get := by
  refine ⟨(sensorFilter_invariant.1 2 [1, -3, 2, 4]).1,
    (sensorFilter_invariant.1 2 [1, -3, 2, 4]).2.2.1⟩

/-! ## noFail completion and frame lemmas for the rule blocks -/

attribute [simp] Out.pure_st Out.pure_ok Out.pure_evs Out.bind_st Out.bind_evs Out.bind_ok
attribute [simp] setRelay_ok_noFail

@[simp] theorem setRelay_st_last_enforce (fails : Fails) (now : ℚ) (n : RName)
    (d f : Bool) (st : Controller) :
    (setRelay fails now n d f st).st.last_enforce = st.last_enforce := by
  rw [setRelay_st]

@[simp] theorem mistingBlock_ok (now : ℚ) (st : Controller) :
    (mistingBlock noFail now st).ok = true := by
  unfold mistingBlock
  (repeat' split) <;> simp [Out.bind_ok]

@[simp] theorem airPumpBlock_ok (now : ℚ) (st : Controller) :
    (airPumpBlock noFail now st).ok = true := by
  unfold airPumpBlock
  (repeat' split) <;> simp [Out.bind_ok]

@[simp] theorem exhaustBlock_ok (now : ℚ) (hour : Nat) (st : Controller) :
    (exhaustBlock noFail now hour st).ok = true := by
  unfold exhaustBlock
  (repeat' split) <;> simp [Out.bind_ok]

@[simp] theorem lightsBlock_ok (now : ℚ) (hour : Nat) (st : Controller) :
    (lightsBlock noFail now hour st).ok = true := by
  unfold lightsBlock
  simp [Out.bind_ok]

@[simp] theorem phUpBlock_ok (now : ℚ) (st : Controller) :
    (phUpBlock noFail now st).ok = true := by
  unfold phUpBlock
  (repeat' split) <;> simp [Out.bind_ok]

@[simp] theorem phDownBlock_ok (now : ℚ) (st : Controller) :
    (phDownBlock noFail now st).ok = true := by
  unfold phDownBlock
  (repeat' split) <;> simp [Out.bind_ok]

@[simp] theorem tdsPulse_ok (now : ℚ) (st : Controller) :
    (tdsPulse noFail now st).ok = true := by
  unfold tdsPulse
  (repeat' split) <;> simp [Out.bind_ok]

@[simp] theorem tdsDecide_ok (now tds : ℚ) (st : Controller) :
    (tdsDecide noFail now tds st).ok = true := by
  unfold tdsDecide
  dsimp only
  (repeat' split) <;> simp [Out.bind_ok]

@[simp] theorem tdsDosingBlock_ok (now : ℚ) (st : Controller) :
    (tdsDosingBlock noFail now st).ok = true := by
  unfold tdsDosingBlock
  (repeat' split) <;> simp [Out.bind_ok]

@[simp] theorem processAutomation_ok (st : Controller) (now : ℚ) (hour : Nat) :
    (processAutomation noFail st now hour).ok = true := by
  unfold processAutomation
  simp [Out.bind_ok]

@[simp] theorem mistingBlock_last_enforce (fails : Fails) (now : ℚ) (st : Controller) :
    (mistingBlock fails now st).st.last_enforce = st.last_enforce := by
  unfold mistingBlock
  (repeat' split) <;> simp [Out.bind_st, apply_ite Controller.last_enforce]

@[simp] theorem airPumpBlock_last_enforce (fails : Fails) (now : ℚ) (st : Controller) :
    (airPumpBlock fails now st).st.last_enforce = st.last_enforce := by
  unfold airPumpBlock
  (repeat' split) <;> simp [Out.bind_st, apply_ite Controller.last_enforce]

@[simp] theorem exhaustBlock_last_enforce (fails : Fails) (now : ℚ) (hour : Nat)
    (st : Controller) :
    (exhaustBlock fails now hour st).st.last_enforce = st.last_enforce := by
  unfold exhaustBlock
  (repeat' split) <;> simp [Out.bind_st, apply_ite Controller.last_enforce]

@[simp] theorem lightsBlock_last_enforce (fails : Fails) (now : ℚ) (hour : Nat)
    (st : Controller) :
    (lightsBlock fails now hour st).st.last_enforce = st.last_enforce := by
  unfold lightsBlock
  simp [Out.bind_st, apply_ite Controller.last_enforce]

@[simp] theorem phUpBlock_last_enforce (fails : Fails) (now : ℚ) (st : Controller) :
    (phUpBlock fails now st).st.last_enforce = st.last_enforce := by
  unfold phUpBlock
  (repeat' split) <;> simp [Out.bind_st, apply_ite Controller.last_enforce]

@[simp] theorem phDownBlock_last_enforce (fails : Fails) (now : ℚ) (st : Controller) :
    (phDownBlock fails now st).st.last_enforce = st.last_enforce := by
  unfold phDownBlock
  (repeat' split) <;> simp [Out.bind_st, apply_ite Controller.last_enforce]

@[simp] theorem tdsPulse_last_enforce (fails : Fails) (now : ℚ) (st : Controller) :
    (tdsPulse fails now st).st.last_enforce = st.last_enforce := by
  unfold tdsPulse
  (repeat' split) <;> simp [Out.bind_st, apply_ite Controller.last_enforce]

@[simp] theorem tdsDecide_last_enforce (fails : Fails) (now tds : ℚ) (st : Controller) :
    (tdsDecide fails now tds st).st.last_enforce = st.last_enforce := by
  unfold tdsDecide
  dsimp only
  (repeat' split) <;> simp [Out.bind_st, apply_ite Controller.last_enforce]

@[simp] theorem tdsDosingBlock_last_enforce (fails : Fails) (now : ℚ) (st : Controller) :
    (tdsDosingBlock fails now st).st.last_enforce = st.last_enforce := by
  unfold tdsDosingBlock
  (repeat' split) <;> simp [Out.bind_st, apply_ite Controller.last_enforce]

@[simp] theorem processAutomation_last_enforce (fails : Fails) (st : Controller)
    (now : ℚ) (hour : Nat) :
    (processAutomation fails st now hour).st.last_enforce = st.last_enforce := by
  unfold processAutomation
  simp [Out.bind_st, apply_ite Controller.last_enforce]

/-- `enforceGo` never changes the controller state. -/
theorem enforceGo_st (fails : Fails) (names : List RName) (st : Controller) :
    (enforceGo fails names st).st = st := by
  induction names with
  | nil => rfl
  | cons r rest ih =>
    unfold enforceGo
    split <;> simp [ih]

/-- Every relay with a known state gets its event from the enforcement
loop (no-failure run). -/
theorem enforceGo_mem (names : List RName) (st : Controller) (r : RName) (b : Bool)
    (hr : r ∈ names) (hb : (st.relays r).state = some b) :
    (r.rid, b) ∈ (enforceGo noFail names st).evs := by
  induction names with
  | nil => cases hr
  | cons x rest ih =>
    rcases List.mem_cons.1 hr with h | h
    · subst h
      unfold enforceGo
      rw [hb]
      simp [noFail]
    · unfold enforceGo
      split
      · simp [noFail, enforceGo_st]
        right
        exact ih h
      · exact ih h

/-- Every relay name is in the dict iteration order. -/
theorem mem_relayOrder (r : RName) : r ∈ relayOrder := by
  cases r <;> simp [relayOrder]

/-- C3 (amended): with calibration set and override clear, the rule
engine still runs — the controller evolves exactly as with calibration
clear — but the api-layer callback returns early, so the external
relay-state mirror `RELAY_STATES` is left completely unchanged; only
override mode suspends rule evaluation itself. -/
theorem calibration_suspends_only_external_writes :
    ∀ (st : Controller) (m : Nat → Bool) (now : ℚ) (hour : Nat),
      (systemTick true st m now hour).2 = m ∧
      (systemTick true st m now hour).1 = (systemTick false st m now hour).1 := by
  intro st m now hour
  refine ⟨?_, rfl⟩
  show (loopTick noFail st now hour).2.foldl (applyRelayCallback st.override_mode true) m = m
  generalize (loopTick noFail st now hour).2 = evs
  induction evs generalizing m with
  | nil => rfl
  | cons e rest ih =>
    have h : applyRelayCallback st.override_mode true m e = m := by
      simp [applyRelayCallback]
    simpa [h] using ih m

/-- C4 (amended): on every tick with override clear and at least 10s
since the last enforcement, after the rule pass the driver callback is
re-invoked for every actuator whose state is then known, even if
unchanged.  (With override set, neither rules nor enforcement run —
see the counterexample; calibration does not suppress the re-invocation
at the controller.) -/
theorem periodic_enforcement_on_tick :
    ∀ (st : Controller) (now : ℚ) (hour : Nat),
      st.override_mode = false →
      ENFORCE_INTERVAL ≤ now - st.last_enforce →
      ∀ (r : RName) (b : Bool),
        ((processAutomation noFail st now hour).st.relays r).state = some b →
        (r.rid, b) ∈ (loopTick noFail st now hour).2 := by
  intro st now hour hov hint r b hrb
  unfold loopTick
  rw [if_neg (by simp [hov])]
  dsimp only
  rw [Out.bind_evs, if_pos (processAutomation_ok st now hour)]
  refine List.mem_append_right _ ?_
  unfold enforceRelayStates
  rw [if_neg (by rw [processAutomation_last_enforce]; exact not_lt.2 hint)]
  exact enforceGo_mem relayOrder _ r b (mem_relayOrder r) hrb

/-- C4 (witness): at the fresh controller and t = 100 the misting relay
(channel 4, state OFF) is re-asserted by the enforcement pass. -/
theorem periodic_enforcement_on_tick_witness :
    ((4 : Nat), false) ∈ (loopTick noFail Controller.init 100 10).2 :=
  periodic_enforcement_on_tick Controller.init 100 10 rfl
    (by norm_num [ENFORCE_INTERVAL, Controller.init])
    .MISTING false (by with_unfolding_all decide)

/-- C1: the pH-up valve is NOT turned off when its 2s dose elapses.  With
the pH filter ready at mean 5.0 and ticks at t=100,101,102 (hour 10), the
valve goes ON at t=100, but the OFF attempt at t=102 is rejected by the
5s debounce (`RelayState.set` returns unchanged, no callback fires) while
`ph_dosing_until` is nonetheless extended to t=132; the valve only turns
OFF at t=132, i.e. it is ON for 32s instead of the documented 2s
(`PH_DOSE_TIME = 2  # seconds to dose (ON time for relay pulse)`). -/
theorem phUp_dose_off_blocked_by_debounce :
    ((runTicks 10 phReadyLow [100, 101, 102]).relays .PH_UP).state = some true ∧
    (runTicks 10 phReadyLow [100, 101, 102]).ph_dosing_until = 132 ∧
    (loopTick noFail (runTicks 10 phReadyLow [100, 101]) 102 10).2.filter
      (fun e => e.1 == 3) = [] ∧
    ((runTicks 10 phReadyLow [100, 101, 102, 107, 131]).relays .PH_UP).state = some true ∧
    ((runTicks 10 phReadyLow [100, 101, 102, 107, 131, 132]).relays .PH_UP).state
      = some false ∧
    (runTicks 10 phReadyLow [100, 101, 102, 107, 131, 132]).ph_dosing_until = 162 := by
  with_unfolding_all decide

/-- C3 (counterexample): with calibration set (and override clear) the
rule engine still runs: from the fresh controller a tick at t=1000
commits the misting initialization (OFF to ON transition, 1000s ≥ 15min
since last off) inside the controller — rule evaluation is not skipped
and an actuator-state change is committed, unlike in override mode; only
the api-layer mirror update is dropped (`RELAY_STATES[4]` stays false). -/
theorem calibration_mode_rules_still_run :
    Controller.init.override_mode = false ∧
    (Controller.init.relays .MISTING).state = some false ∧
    ((systemTick true Controller.init (fun _ => false) 1000 10).1.relays .MISTING).state
      = some true ∧
    (systemTick true Controller.init (fun _ => false) 1000 10).2 4 = false := by
  with_unfolding_all decide

/-- An overridden controller (all other fields fresh). -/
def overriddenCtrl : Controller := { Controller.init with override_mode := true }

/-- C4 (counterexample): periodic enforcement does NOT run independently
of the mode flags: with override set, at a tick where more than 10s have
elapsed since the last enforcement and the misting relay state is known,
the loop makes no callback invocation at all. -/
theorem override_blocks_periodic_enforcement :
    ENFORCE_INTERVAL ≤ (100 : ℚ) - overriddenCtrl.last_enforce ∧
    (overriddenCtrl.relays .MISTING).state = some false ∧
    (loopTick noFail overriddenCtrl 100 10).2 = [] := by
  with_unfolding_all decide

/-- C8: the exhaust rule.  First part: the `needed` value computed by the
block satisfies the claim — above the day/night high threshold it is
true, at/below the low threshold it is false (absent a humidity force),
inside the band it holds the seeded current state, humidity above 70%
forces it true (and never turns it off), and with the temperature filter
not ready (and no humidity force) the seed is kept.  Second part: on a
pass where either filter is ready, the block applies one and the same
`needed` value, seeded from the current `EXHAUST_IN` state, to both
exhaust actuators. -/
theorem exhaust_rule_correct :
    (∀ (day tempReady humReady : Bool) (temp hum : ℚ) (seed : Bool),
      (humReady = true → HUMIDITY_HIGH < hum →
          exhaustNeeded day tempReady humReady temp hum seed = true)
      ∧ (tempReady = true → day = true → TEMP_DAY_HIGH < temp →
          exhaustNeeded day tempReady humReady temp hum seed = true)
      ∧ (tempReady = true → day = true → temp ≤ TEMP_DAY_LOW →
          ¬(humReady = true ∧ HUMIDITY_HIGH < hum) →
          exhaustNeeded day tempReady humReady temp hum seed = false)
      ∧ (tempReady = true → day = true → TEMP_DAY_LOW < temp → temp ≤ TEMP_DAY_HIGH →
          ¬(humReady = true ∧ HUMIDITY_HIGH < hum) →
          exhaustNeeded day tempReady humReady temp hum seed = seed)
      ∧ (tempReady = true → day = false → TEMP_NIGHT_HIGH < temp →
          exhaustNeeded day tempReady humReady temp hum seed = true)
      ∧ (tempReady = true → day = false → temp ≤ TEMP_NIGHT_LOW →
          ¬(humReady = true ∧ HUMIDITY_HIGH < hum) →
          exhaustNeeded day tempReady humReady temp hum seed = false)
      ∧ (tempReady = true → day = false → TEMP_NIGHT_LOW < temp → temp ≤ TEMP_NIGHT_HIGH →
          ¬(humReady = true ∧ HUMIDITY_HIGH < hum) →
          exhaustNeeded day tempReady humReady temp hum seed = seed)
      ∧ (tempReady = false → ¬(humReady = true ∧ HUMIDITY_HIGH < hum) →
          exhaustNeeded day tempReady humReady temp hum seed = seed)) ∧
    (∀ (fails : Fails) (now : ℚ) (hour : Nat) (st : Controller),
      st.temperature.ready = true ∨ st.humidity.ready = true →
      exhaustBlock fails now hour st =
        (setRelay fails now .EXHAUST_IN (exhaustNeeded (isDaytime hour) st.temperature.ready
            st.humidity.ready st.temperature.get st.humidity.get
            (truthy (st.relays .EXHAUST_IN).state)) false st).bind
          (setRelay fails now .EXHAUST_OUT (exhaustNeeded (isDaytime hour) st.temperature.ready
            st.humidity.ready st.temperature.get st.humidity.get
            (truthy (st.relays .EXHAUST_IN).state)) false)) := by
  constructor
  · intro day tempReady humReady temp hum seed
    refine ⟨?_, ?_, ?_, ?_, ?_, ?_, ?_, ?_⟩
    · intro hhr hhum
      simp [exhaustNeeded, hhr, hhum]
    · intro htr hday htemp
      simp [exhaustNeeded, htr, hday, htemp]
    · intro htr hday htemp hnf
      have h1 : ¬(TEMP_DAY_HIGH < temp) := by
        simp only [TEMP_DAY_HIGH]
        simp only [TEMP_DAY_LOW] at htemp
        linarith
      simp [exhaustNeeded, htr, hday, h1, htemp, hnf]
    · intro htr hday hlow hhigh hnf
      simp [exhaustNeeded, htr, hday, not_lt.2 hhigh, not_le.2 hlow, hnf]
    · intro htr hday htemp
      simp [exhaustNeeded, htr, hday, htemp]
    · intro htr hday htemp hnf
      have h1 : ¬(TEMP_NIGHT_HIGH < temp) := by
        simp only [TEMP_NIGHT_HIGH]
        simp only [TEMP_NIGHT_LOW] at htemp
        linarith
      simp [exhaustNeeded, htr, hday, h1, htemp, hnf]
    · intro htr hday hlow hhigh hnf
      simp [exhaustNeeded, htr, hday, not_lt.2 hhigh, not_le.2 hlow, hnf]
    · intro htr hnf
      simp [exhaustNeeded, htr, hnf]
  · intro fails now hour st h
    unfold exhaustBlock
    rw [if_pos h]

/-- C8 (witness): the spec's own example — daytime, temperature filter
ready at 27.0°C commands the pair ON; at 22.5°C it commands OFF
(humidity not ready in both cases). -/
theorem exhaust_rule_correct_witness :
    exhaustNeeded true true false 27 0 false = true ∧
    exhaustNeeded true true false (22.5 : ℚ) 0 true = false := by
  constructor
  · exact (exhaust_rule_correct.1 true true false 27 0 false).2.1 rfl rfl
      (by norm_num [TEMP_DAY_HIGH])
  · exact (exhaust_rule_correct.1 true true false (22.5 : ℚ) 0 true).2.2.1 rfl rfl
      (by norm_num [TEMP_DAY_LOW]) (by simp)

/-! ## Event-membership lemmas for the pH mutual-exclusion analysis -/

theorem Out.mem_bind {e : Ev} (o : Out) (f : Controller → Out) :
    e ∈ (o.bind f).evs ↔ e ∈ o.evs ∨ (o.ok = true ∧ e ∈ (f o.st).evs) := by
  unfold Out.bind
  split
  · rename_i h
    simp [h]
  · rename_i h
    simp [h]

/-- Every event of a `_set_relay` call is the one invocation it makes. -/
theorem setRelay_evs_id (fails : Fails) (now : ℚ) (n : RName) (d f : Bool)
    (st : Controller) : ∀ e ∈ (setRelay fails now n d f st).evs, e = (n.rid, d) := by
  intro e he
  rcases setRelay_evs fails now n d f st with h | h
  · rw [h] at he
    cases he
  · rw [h] at he
    simpa using he

/-- Events of a `_set_relay` followed by a pure timer update. -/
theorem mem_setRelay_bind_pure {e : Ev} (fails : Fails) (now : ℚ) (n : RName)
    (d f : Bool) (st : Controller) (g : Controller → Controller)
    (he : e ∈ ((setRelay fails now n d f st).bind (fun s => Out.pure (g s))).evs) :
    e = (n.rid, d) := by
  rcases (Out.mem_bind _ _).1 he with h | ⟨_, h⟩
  · exact setRelay_evs_id _ _ _ _ _ _ e h
  · simp [Out.pure] at h

theorem mistingBlock_evs_id (fails : Fails) (now : ℚ) (st : Controller) :
    ∀ e ∈ (mistingBlock fails now st).evs, e.1 = 4 := by
  intro e he
  unfold mistingBlock at he
  split at he
  · simp [setRelay_evs_id _ _ _ _ _ _ e he, RName.rid]
  · split at he
    · simp [mem_setRelay_bind_pure _ _ _ _ _ _ _ he, RName.rid]
    · simp [Out.pure] at he
  · split at he
    · simp [mem_setRelay_bind_pure _ _ _ _ _ _ _ he, RName.rid]
    · simp [Out.pure] at he

theorem airPumpBlock_evs_id (fails : Fails) (now : ℚ) (st : Controller) :
    ∀ e ∈ (airPumpBlock fails now st).evs, e.1 = 7 := by
  intro e he
  unfold airPumpBlock at he
  split at he
  · split at he
    · simp [setRelay_evs_id _ _ _ _ _ _ e he, RName.rid]
    · split at he
      · simp [setRelay_evs_id _ _ _ _ _ _ e he, RName.rid]
      · simp [Out.pure] at he
  · simp [Out.pure] at he

theorem exhaustBlock_evs_id (fails : Fails) (now : ℚ) (hour : Nat) (st : Controller) :
    ∀ e ∈ (exhaustBlock fails now hour st).evs, e.1 = 9 ∨ e.1 = 5 := by
  intro e he
  unfold exhaustBlock at he
  split at he
  · rcases (Out.mem_bind _ _).1 he with h | ⟨_, h⟩
    · left
      simp [setRelay_evs_id _ _ _ _ _ _ e h, RName.rid]
    · right
      simp [setRelay_evs_id _ _ _ _ _ _ e h, RName.rid]
  · simp [Out.pure] at he

theorem lightsBlock_evs_id (fails : Fails) (now : ℚ) (hour : Nat) (st : Controller) :
    ∀ e ∈ (lightsBlock fails now hour st).evs, e.1 = 6 ∨ e.1 = 8 := by
  intro e he
  unfold lightsBlock at he
  rcases (Out.mem_bind _ _).1 he with h | ⟨_, h⟩
  · left
    simp [setRelay_evs_id _ _ _ _ _ _ e h, RName.rid]
  · right
    simp [setRelay_evs_id _ _ _ _ _ _ e h, RName.rid]

theorem phUpBlock_evs_id (fails : Fails) (now : ℚ) (st : Controller) :
    ∀ e ∈ (phUpBlock fails now st).evs, e.1 = 3 := by
  intro e he
  unfold phUpBlock at he
  split at he
  · split at he
    · simp [mem_setRelay_bind_pure _ _ _ _ _ _ _ he, RName.rid]
    · split at he
      · simp [mem_setRelay_bind_pure _ _ _ _ _ _ _ he, RName.rid]
      · split at he
        · simp [setRelay_evs_id _ _ _ _ _ _ e he, RName.rid]
        · simp [Out.pure] at he
  · simp [Out.pure] at he

theorem phDownBlock_evs_id (fails : Fails) (now : ℚ) (st : Controller) :
    ∀ e ∈ (phDownBlock fails now st).evs, e.1 = 2 := by
  intro e he
  unfold phDownBlock at he
  split at he
  · split at he
    · simp [mem_setRelay_bind_pure _ _ _ _ _ _ _ he, RName.rid]
    · split at he
      · simp [mem_setRelay_bind_pure _ _ _ _ _ _ _ he, RName.rid]
      · split at he
        · simp [setRelay_evs_id _ _ _ _ _ _ e he, RName.rid]
        · simp [Out.pure] at he
  · simp [Out.pure] at he

theorem tdsPulse_evs_id (fails : Fails) (now : ℚ) (st : Controller) :
    ∀ e ∈ (tdsPulse fails now st).evs, e.1 = 1 := by
  intro e he
  unfold tdsPulse at he
  split at he
  · simp [Out.pure] at he
  · split at he
    · split at he
      · simp [mem_setRelay_bind_pure _ _ _ _ _ _ _ he, RName.rid]
      · simp [Out.pure] at he
    · split at he
      · simp [mem_setRelay_bind_pure _ _ _ _ _ _ _ he, RName.rid]
      · simp [Out.pure] at he

theorem tdsDecide_evs_id (fails : Fails) (now tds : ℚ) (st : Controller) :
    ∀ e ∈ (tdsDecide fails now tds st).evs, e.1 = 1 := by
  intro e he
  unfold tdsDecide at he
  dsimp only at he
  split at he
  · exact tdsPulse_evs_id _ _ _ e he
  · split at he
    · split at he
      · simp [setRelay_evs_id _ _ _ _ _ _ e he, RName.rid]
      · simp [Out.pure] at he
    · exact tdsPulse_evs_id _ _ _ e he

theorem tdsDosingBlock_evs_id (fails : Fails) (now : ℚ) (st : Controller) :
    ∀ e ∈ (tdsDosingBlock fails now st).evs, e.1 = 1 := by
  intro e he
  unfold tdsDosingBlock at he
  split at he
  · rcases (Out.mem_bind _ _).1 he with h | ⟨_, h⟩
    · split at h
      · simp [setRelay_evs_id _ _ _ _ _ _ e h, RName.rid]
      · simp [Out.pure] at h
    · exact tdsDecide_evs_id _ _ _ _ e h
  · simp [Out.pure] at he

/-- If the pH-up block emitted the dose-start event `(3, true)` and
completed (no exception), the shared timer was set to `now + 2`. -/
theorem phUpBlock_until_after_start (fails : Fails) (now : ℚ) (st : Controller)
    (h3 : (3, true) ∈ (phUpBlock fails now st).evs)
    (hok : (phUpBlock fails now st).ok = true) :
    (phUpBlock fails now st).st.ph_dosing_until = now + PH_DOSE_TIME := by
  unfold phUpBlock at h3 hok ⊢
  by_cases h0 : st.ph.ready = true
  · simp only [h0, if_true] at h3 hok ⊢
    by_cases hc1 : st.ph.get < PH_LOW ∧ st.ph_dosing_until < now
    · simp only [hc1, and_self, if_true] at h3 hok ⊢
      rw [Out.bind_ok] at hok
      rw [Out.bind_st]
      by_cases hsr : (setRelay fails now .PH_UP true false st).ok = true
      · simp [hsr]
      · simp [hsr] at hok
    · simp only [hc1, if_false] at h3
      by_cases hc2 : truthy (st.relays .PH_UP).state = true ∧ st.ph_dosing_until ≤ now
      · simp only [hc2, and_self, if_true] at h3
        have := mem_setRelay_bind_pure _ _ _ _ _ _ _ h3
        simp at this
      · simp only [hc2, if_false] at h3
        by_cases hc3 : truthy (st.relays .PH_UP).state = false ∧ st.ph_dosing_until ≤ now
        · simp only [hc3, and_self, if_true] at h3
          have := setRelay_evs_id _ _ _ _ _ _ _ h3
          simp at this
        · simp only [hc3, if_false] at h3
          simp [Out.pure] at h3
  · simp only [h0] at h3
    simp [Out.pure] at h3

/-- If no dose decision is eligible (`now` not past the shared timer),
the pH-down block never emits a dose-start event. -/
theorem phDownBlock_not_started (fails : Fails) (now : ℚ) (st : Controller)
    (h : ¬(st.ph_dosing_until < now)) :
    (2, true) ∉ (phDownBlock fails now st).evs := by
  intro he
  unfold phDownBlock at he
  split at he
  · split at he
    · rename_i hc
      exact h hc.2
    · split at he
      · have := mem_setRelay_bind_pure _ _ _ _ _ _ _ he
        simp at this
      · split at he
        · have := setRelay_evs_id _ _ _ _ _ _ _ he
          simp at this
        · simp [Out.pure] at he
  · simp [Out.pure] at he

/-- Reachable state with the pH filter ready at mean 7.5. -/
def phReadyHigh : Controller :=
  feed Controller.init (List.replicate 5 { ph := some (7.5 : ℚ) })

/-- Ticks at t=100 and t=101: pH-down doses at t=100 (until t=102). -/
def c9afterDose : Controller := runTicks 10 phReadyHigh [100, 101]

/-- Between ticks, nine pH samples of 5.0 arrive (each accepted by the
filter) bringing the mean to 5.25, below the pH-up threshold. -/
def c9lowPh : Controller := feed c9afterDose (List.replicate 9 { ph := some 5 })

/-- The next tick lands at t=102.5 (the loop's 1s sleep plus processing
time gives gaps of at least, not exactly, one second). -/
def c9bothOn : Controller := (loopTick noFail c9lowPh (102.5 : ℚ) 10).1

/-- C9 (counterexample): a reachable state with BOTH pH valves ON.  The
pH-down valve doses at t=100 (dose-until t=102, its OFF at dose end
would anyway be debounce-blocked); no tick lands in [102, 102.5); at
t=102.5 the mean has dropped to 5.25, the pH-up branch runs first, sees
`now > dose-until`, and switches pH-up ON while pH-down is still ON. -/
theorem ph_valves_both_on_reachable :
    ((c9afterDose.relays .PH_DOWN).state = some true) ∧
    c9lowPh.ph.get < PH_LOW ∧
    ((c9bothOn.relays .PH_UP).state = some true) ∧
    ((c9bothOn.relays .PH_DOWN).state = some true) := by
  with_unfolding_all decide

/-- C9 (amended): within a single rule-engine pass the two pH valves
never both start a dose: if the pass emitted the pH-up dose-start
command, it did not emit the pH-down dose-start command (the shared
timer, set to now+2 by the pH-up branch, blocks the pH-down branch
evaluated later in the same pass).  Across passes, however, both valves
can be ON simultaneously — see the counterexample. -/
theorem ph_valves_not_both_started_same_pass :
    ∀ (fails : Fails) (st : Controller) (now : ℚ) (hour : Nat),
      (3, true) ∈ (processAutomation fails st now hour).evs →
      (2, true) ∉ (processAutomation fails st now hour).evs := by
  intro fails st now hour h3 h2
  unfold processAutomation at h3 h2
  rcases (Out.mem_bind _ _).1 h2 with h | ⟨ok1, h⟩
  · simpa using mistingBlock_evs_id _ _ _ _ h
  rcases (Out.mem_bind _ _).1 h with h | ⟨ok2, h⟩
  · simpa using airPumpBlock_evs_id _ _ _ _ h
  rcases (Out.mem_bind _ _).1 h with h | ⟨ok3, h⟩
  · rcases exhaustBlock_evs_id _ _ _ _ _ h with h' | h' <;> simp at h'
  rcases (Out.mem_bind _ _).1 h with h | ⟨ok4, h⟩
  · rcases lightsBlock_evs_id _ _ _ _ _ h with h' | h' <;> simp at h'
  rcases (Out.mem_bind _ _).1 h with h | ⟨ok5, h⟩
  · simpa using phUpBlock_evs_id _ _ _ _ h
  rcases (Out.mem_bind _ _).1 h with h | ⟨ok6, h⟩
  · -- the pH-down dose start: show the pH-up block set the timer
    rcases (Out.mem_bind _ _).1 h3 with g | ⟨_, g⟩
    · simpa using mistingBlock_evs_id _ _ _ _ g
    rcases (Out.mem_bind _ _).1 g with g | ⟨_, g⟩
    · simpa using airPumpBlock_evs_id _ _ _ _ g
    rcases (Out.mem_bind _ _).1 g with g | ⟨_, g⟩
    · rcases exhaustBlock_evs_id _ _ _ _ _ g with g' | g' <;> simp at g'
    rcases (Out.mem_bind _ _).1 g with g | ⟨_, g⟩
    · rcases lightsBlock_evs_id _ _ _ _ _ g with g' | g' <;> simp at g'
    rcases (Out.mem_bind _ _).1 g with g | ⟨_, g⟩
    · -- (3, true) came from the pH-up block, which completed (ok5)
      have huntil := phUpBlock_until_after_start _ _ _ g ok5
      refine phDownBlock_not_started _ now _ ?_ h
      rw [huntil]
      simp [PH_DOSE_TIME]
    · rcases (Out.mem_bind _ _).1 g with g' | ⟨_, g'⟩
      · simpa using phDownBlock_evs_id _ _ _ _ g'
      · simpa using tdsDosingBlock_evs_id _ _ _ _ g'
  · simpa using tdsDosingBlock_evs_id _ _ _ _ h

/-- C9 (witness): at the pH-ready-low controller the pass at t=100 emits
the pH-up dose start, hence no pH-down dose start in that pass. -/
theorem ph_valves_not_both_started_same_pass_witness :
    (2, true) ∉ (processAutomation noFail phReadyLow 100 10).evs :=
  ph_valves_not_both_started_same_pass noFail phReadyLow 100 10
    (by with_unfolding_all decide)

/-! ## Exception-propagation analysis (claim C5) -/

/-- A computation is `Good` when every callback invocation it made
succeeded (and it completed), or it aborted at its last invocation, the
only failing one — i.e. nothing runs past a raised exception and a
failing callback is never retried. -/
def Good (fails : Fails) (o : Out) : Prop :=
  (o.ok = true ∧ ∀ e ∈ o.evs, fails e.1 e.2 = false) ∨
  (o.ok = false ∧ ∃ l e, o.evs = l ++ [e] ∧ (∀ x ∈ l, fails x.1 x.2 = false) ∧
    fails e.1 e.2 = true)

theorem Good_pure (fails : Fails) (st : Controller) : Good fails (Out.pure st) :=
  Or.inl ⟨rfl, by simp [Out.pure]⟩

theorem Good_setRelay (fails : Fails) (now : ℚ) (n : RName) (d f : Bool)
    (st : Controller) : Good fails (setRelay fails now n d f st) := by
  unfold setRelay Good
  dsimp only
  split
  · cases hf : fails n.rid d
    · left
      constructor
      · simp [hf]
      · intro e he
        simp at he
        simp [he, hf]
    · right
      refine ⟨by simp [hf], [], (n.rid, d), by simp, by simp, hf⟩
  · left
    simp

theorem Good_emit (fails : Fails) (st : Controller) (i : Nat) (b : Bool) :
    Good fails (Out.mk st [(i, b)] (!(fails i b))) := by
  unfold Good
  cases hf : fails i b
  · left
    constructor
    · simp [hf]
    · intro e he
      simp at he
      simp [he, hf]
  · right
    exact ⟨by simp [hf], [], (i, b), by simp, by simp, hf⟩

theorem Good_bind (fails : Fails) (o : Out) (f : Controller → Out)
    (ho : Good fails o) (hf : ∀ s, Good fails (f s)) : Good fails (o.bind f) := by
  unfold Out.bind
  rcases ho with ⟨hok, hevs⟩ | ⟨hok, l, e, hsplit, hl, he⟩
  · rw [if_pos hok]
    dsimp only
    rcases hf o.st with ⟨hok2, hevs2⟩ | ⟨hok2, l2, e2, hsplit2, hl2, he2⟩
    · left
      refine ⟨hok2, ?_⟩
      intro x hx
      rcases List.mem_append.1 hx with h | h
      · exact hevs x h
      · exact hevs2 x h
    · right
      refine ⟨hok2, o.evs ++ l2, e2, ?_, ?_, he2⟩
      · rw [hsplit2, List.append_assoc]
      · intro x hx
        rcases List.mem_append.1 hx with h | h
        · exact hevs x h
        · exact hl2 x h
  · rw [if_neg (by simp [hok])]
    exact Or.inr ⟨hok, l, e, hsplit, hl, he⟩

theorem mistingBlock_good (fails : Fails) (now : ℚ) (st : Controller) :
    Good fails (mistingBlock fails now st) := by
  unfold mistingBlock
  (repeat' split) <;>
    first
      | exact Good_setRelay _ _ _ _ _ _
      | exact Good_pure _ _
      | exact Good_bind _ _ _ (Good_setRelay _ _ _ _ _ _) (fun s => Good_pure _ _)

theorem airPumpBlock_good (fails : Fails) (now : ℚ) (st : Controller) :
    Good fails (airPumpBlock fails now st) := by
  unfold airPumpBlock
  (repeat' split) <;>
    first
      | exact Good_setRelay _ _ _ _ _ _
      | exact Good_pure _ _

theorem exhaustBlock_good (fails : Fails) (now : ℚ) (hour : Nat) (st : Controller) :
    Good fails (exhaustBlock fails now hour st) := by
  unfold exhaustBlock
  (repeat' split) <;>
    first
      | exact Good_pure _ _
      | exact Good_bind _ _ _ (Good_setRelay _ _ _ _ _ _)
          (fun s => Good_setRelay _ _ _ _ _ _)

theorem lightsBlock_good (fails : Fails) (now : ℚ) (hour : Nat) (st : Controller) :
    Good fails (lightsBlock fails now hour st) := by
  unfold lightsBlock
  exact Good_bind _ _ _ (Good_setRelay _ _ _ _ _ _) (fun s => Good_setRelay _ _ _ _ _ _)

theorem phUpBlock_good (fails : Fails) (now : ℚ) (st : Controller) :
    Good fails (phUpBlock fails now st) := by
  unfold phUpBlock
  (repeat' split) <;>
    first
      | exact Good_setRelay _ _ _ _ _ _
      | exact Good_pure _ _
      | exact Good_bind _ _ _ (Good_setRelay _ _ _ _ _ _) (fun s => Good_pure _ _)

theorem phDownBlock_good (fails : Fails) (now : ℚ) (st : Controller) :
    Good fails (phDownBlock fails now st) := by
  unfold phDownBlock
  (repeat' split) <;>
    first
      | exact Good_setRelay _ _ _ _ _ _
      | exact Good_pure _ _
      | exact Good_bind _ _ _ (Good_setRelay _ _ _ _ _ _) (fun s => Good_pure _ _)

theorem tdsPulse_good (fails : Fails) (now : ℚ) (st : Controller) :
    Good fails (tdsPulse fails now st) := by
  unfold tdsPulse
  (repeat' split) <;>
    first
      | exact Good_setRelay _ _ _ _ _ _
      | exact Good_pure _ _
      | exact Good_bind _ _ _ (Good_setRelay _ _ _ _ _ _) (fun s => Good_pure _ _)

theorem tdsDecide_good (fails : Fails) (now tds : ℚ) (st : Controller) :
    Good fails (tdsDecide fails now tds st) := by
  unfold tdsDecide
  dsimp only
  (repeat' split) <;>
    first
      | exact tdsPulse_good _ _ _
      | exact Good_setRelay _ _ _ _ _ _
      | exact Good_pure _ _

theorem tdsDosingBlock_good (fails : Fails) (now : ℚ) (st : Controller) :
    Good fails (tdsDosingBlock fails now st) := by
  unfold tdsDosingBlock
  (repeat' split) <;>
    first
      | exact Good_pure _ _
      | exact Good_bind _ _ _ (Good_setRelay _ _ _ _ _ _) (fun s => tdsDecide_good _ _ _ _)
      | exact Good_bind _ _ _ (Good_pure _ _) (fun s => tdsDecide_good _ _ _ _)

theorem processAutomation_good (fails : Fails) (st : Controller) (now : ℚ) (hour : Nat) :
    Good fails (processAutomation fails st now hour) := by
  unfold processAutomation
  exact Good_bind _ _ _ (mistingBlock_good _ _ _) (fun s1 =>
    Good_bind _ _ _ (airPumpBlock_good _ _ _) (fun s2 =>
    Good_bind _ _ _ (exhaustBlock_good _ _ _ _) (fun s3 =>
    Good_bind _ _ _ (lightsBlock_good _ _ _ _) (fun s4 =>
    Good_bind _ _ _ (phUpBlock_good _ _ _) (fun s5 =>
    Good_bind _ _ _ (phDownBlock_good _ _ _) (fun s6 =>
    tdsDosingBlock_good _ _ _))))))

theorem enforceGo_good (fails : Fails) (names : List RName) (st : Controller) :
    Good fails (enforceGo fails names st) := by
  induction names generalizing st with
  | nil => exact Good_pure _ _
  | cons r rest ih =>
    unfold enforceGo
    split
    · exact Good_bind _ _ _ (Good_emit _ _ _ _) (fun s => ih s)
    · exact ih st

theorem enforceRelayStates_good (fails : Fails) (st : Controller) (now : ℚ) :
    Good fails (enforceRelayStates fails st now) := by
  unfold enforceRelayStates
  split
  · exact Good_pure _ _
  · exact enforceGo_good _ _ _

/-- The callback oracle that fails exactly on the aero lights write. -/
def failsAero : Fails := fun i _ => i == 6

/-- C5 (counterexample): with the pH filter ready at 5.0 and the
callback raising on the aero-lights write, the tick at t=100 stops at
that write: the aero commit is kept (state ON) but the pH rule of the
same tick is never evaluated (pH-up stays OFF, the dose timer is never
set, enforcement never runs) — whereas the same tick with a healthy
callback turns pH-up ON.  The remaining rules of the tick are NOT still
evaluated. -/
theorem callback_failure_aborts_remaining_rules :
    (loopTick failsAero phReadyLow 100 10).2 = [(6, true)] ∧
    ((loopTick failsAero phReadyLow 100 10).1.relays .GROW_LIGHTS_AERO).state = some true ∧
    ((loopTick failsAero phReadyLow 100 10).1.relays .PH_UP).state = some false ∧
    (loopTick failsAero phReadyLow 100 10).1.ph_dosing_until = 0 ∧
    (loopTick failsAero phReadyLow 100 10).1.last_enforce = 0 ∧
    ((loopTick noFail phReadyLow 100 10).1.relays .PH_UP).state = some true := by
  with_unfolding_all decide

/-- C5 (amended): when the actuator-driver callback raises during a
tick, the loop swallows the exception and continues with the next tick,
the in-controller commit made before the failing callback is kept (the
committed state never depends on whether the callback raises), and the
callback is not retried within the tick: every invocation of the tick
except possibly the last one succeeded, so nothing — neither the
remaining rules nor that tick's enforcement — runs past the failure. -/
theorem callback_failure_semantics :
    (∀ (fails : Fails) (now : ℚ) (n : RName) (d f : Bool) (st : Controller),
      (setRelay fails now n d f st).st = (setRelay noFail now n d f st).st) ∧
    (∀ (fails : Fails) (st : Controller) (now : ℚ) (hour : Nat),
      ∀ e ∈ ((loopTick fails st now hour).2).dropLast, fails e.1 e.2 = false) := by
  constructor
  · intro fails now n d f st
    rw [setRelay_st, setRelay_st]
  · intro fails st now hour e he
    unfold loopTick at he
    split at he
    · simp at he
    · dsimp only at he
      have hg := Good_bind fails _ _ (processAutomation_good fails st now hour)
        (fun s => enforceRelayStates_good fails s now)
      rcases hg with ⟨_, hevs⟩ | ⟨_, l, x, hsplit, hl, hx⟩
      · exact hevs e (List.dropLast_subset _ he)
      · rw [hsplit, List.dropLast_concat] at he
        exact hl e he

/-- The callback oracle that fails exactly on the DWC lights write. -/
def failsDwc : Fails := fun i _ => i == 8

/-- C5 (witness): in the tick at t=100 with the callback raising on the
DWC lights write, the preceding aero-lights invocation (the only event
before the last) succeeded. -/
theorem callback_failure_semantics_witness : failsDwc 6 true = false :=
  callback_failure_semantics.2 failsDwc phReadyLow 100 10 (6, true)
    (by with_unfolding_all decide)

/-! ## Callback-count analysis for the override-exit resync (claim C7) -/

/-- Number of callback invocations for relay channel `k` in a trace. -/
def countK (k : Nat) (evs : List Ev) : Nat :=
  (evs.filter (fun e => decide (e.1 = k))).length

/-- Per-channel one-shot bound (kept behind a definition so that case
splits on rule branches do not split it). -/
def bnd (i k : Nat) : Nat := if i = k then 1 else 0

@[simp] theorem countK_nil (k : Nat) : countK k [] = 0 := rfl

theorem countK_append (k : Nat) (l1 l2 : List Ev) :
    countK k (l1 ++ l2) = countK k l1 + countK k l2 := by
  simp [countK, List.filter_append]

theorem countK_bind_le (k : Nat) (o : Out) (f : Controller → Out) :
    countK k (o.bind f).evs ≤ countK k o.evs + countK k (f o.st).evs := by
  rw [Out.bind_evs]
  split
  · rw [countK_append]
  · exact Nat.le_add_right _ _

theorem countK_setRelay (k : Nat) (fails : Fails) (now : ℚ) (n : RName) (d f : Bool)
    (st : Controller) :
    countK k (setRelay fails now n d f st).evs ≤ bnd n.rid k := by
  rcases setRelay_evs fails now n d f st with h | h <;> rw [h]
  · simp
  · simp only [countK, bnd, List.filter]
    split <;> rename_i hd
    · simp at hd
      simp [hd]
    · simp at hd
      simp [hd]

theorem mistingBlock_countK (k : Nat) (fails : Fails) (now : ℚ) (st : Controller) :
    countK k (mistingBlock fails now st).evs ≤ bnd 4 k := by
  unfold mistingBlock
  (repeat' split) <;>
    first
      | exact countK_setRelay _ _ _ _ _ _ _
      | exact Nat.zero_le _
      | exact le_trans (countK_bind_le _ _ _)
          (by simpa [RName.rid] using countK_setRelay k fails now .MISTING false true st)
      | exact le_trans (countK_bind_le _ _ _)
          (by simpa [RName.rid] using countK_setRelay k fails now .MISTING true true st)

theorem airPumpBlock_countK (k : Nat) (fails : Fails) (now : ℚ) (st : Controller) :
    countK k (airPumpBlock fails now st).evs ≤ bnd 7 k := by
  unfold airPumpBlock
  (repeat' split) <;>
    first
      | exact countK_setRelay _ _ _ _ _ _ _
      | exact Nat.zero_le _

theorem exhaustBlock_countK (k : Nat) (fails : Fails) (now : ℚ) (hour : Nat)
    (st : Controller) :
    countK k (exhaustBlock fails now hour st).evs ≤ bnd 9 k + bnd 5 k := by
  unfold exhaustBlock
  (repeat' split) <;>
    first
      | exact Nat.zero_le _
      | exact le_trans (countK_bind_le _ _ _)
          (Nat.add_le_add (countK_setRelay _ _ _ _ _ _ _) (countK_setRelay _ _ _ _ _ _ _))

theorem lightsBlock_countK (k : Nat) (fails : Fails) (now : ℚ) (hour : Nat)
    (st : Controller) :
    countK k (lightsBlock fails now hour st).evs ≤ bnd 6 k + bnd 8 k := by
  unfold lightsBlock
  exact le_trans (countK_bind_le _ _ _)
    (Nat.add_le_add (countK_setRelay _ _ _ _ _ _ _) (countK_setRelay _ _ _ _ _ _ _))

theorem phUpBlock_countK (k : Nat) (fails : Fails) (now : ℚ) (st : Controller) :
    countK k (phUpBlock fails now st).evs ≤ bnd 3 k := by
  unfold phUpBlock
  (repeat' split) <;>
    first
      | exact countK_setRelay _ _ _ _ _ _ _
      | exact Nat.zero_le _
      | exact le_trans (countK_bind_le _ _ _)
          (by simpa [RName.rid] using countK_setRelay k fails now .PH_UP true false st)
      | exact le_trans (countK_bind_le _ _ _)
          (by simpa [RName.rid] using countK_setRelay k fails now .PH_UP false false st)

theorem phDownBlock_countK (k : Nat) (fails : Fails) (now : ℚ) (st : Controller) :
    countK k (phDownBlock fails now st).evs ≤ bnd 2 k := by
  unfold phDownBlock
  (repeat' split) <;>
    first
      | exact countK_setRelay _ _ _ _ _ _ _
      | exact Nat.zero_le _
      | exact le_trans (countK_bind_le _ _ _)
          (by simpa [RName.rid] using countK_setRelay k fails now .PH_DOWN true false st)
      | exact le_trans (countK_bind_le _ _ _)
          (by simpa [RName.rid] using countK_setRelay k fails now .PH_DOWN false false st)

theorem tdsPulse_countK (k : Nat) (fails : Fails) (now : ℚ) (st : Controller) :
    countK k (tdsPulse fails now st).evs ≤ bnd 1 k := by
  unfold tdsPulse
  (repeat' split) <;>
    first
      | exact Nat.zero_le _
      | exact le_trans (countK_bind_le _ _ _)
          (by simpa [RName.rid] using countK_setRelay k fails now .LEAFY_GREEN false true st)
      | exact le_trans (countK_bind_le _ _ _)
          (by simpa [RName.rid] using countK_setRelay k fails now .LEAFY_GREEN true true st)

theorem tdsDecide_countK (k : Nat) (fails : Fails) (now tds : ℚ) (st : Controller) :
    countK k (tdsDecide fails now tds st).evs ≤ bnd 1 k := by
  unfold tdsDecide
  dsimp only
  (repeat' split) <;>
    first
      | exact tdsPulse_countK _ _ _ _
      | exact countK_setRelay _ _ _ _ _ _ _
      | exact Nat.zero_le _

theorem tdsDosingBlock_countK (k : Nat) (fails : Fails) (now : ℚ) (st : Controller) :
    countK k (tdsDosingBlock fails now st).evs ≤ bnd 1 k + bnd 1 k := by
  unfold tdsDosingBlock
  (repeat' split) <;>
    first
      | exact Nat.zero_le _
      | exact le_trans (countK_bind_le _ _ _)
          (Nat.add_le_add (countK_setRelay _ _ _ _ _ _ _) (tdsDecide_countK _ _ _ _ _))
      | exact le_trans (countK_bind_le _ _ _)
          (Nat.add_le_add (Nat.zero_le _) (tdsDecide_countK _ _ _ _ _))

/-- In one full rule pass, the driver callback fires at most once per
relay channel, except channel 1 (the nutrient valve), which can fire
twice. -/
theorem processAutomation_countK (k : Nat) (fails : Fails) (st : Controller)
    (now : ℚ) (hour : Nat) :
    countK k (processAutomation fails st now hour).evs ≤ if 1 = k then 2 else 1 := by
  unfold processAutomation
  have t6 : ∀ s : Controller,
      countK k ((phDownBlock fails now s).bind (fun s => tdsDosingBlock fails now s)).evs ≤
        bnd 2 k + (bnd 1 k + bnd 1 k) :=
    fun s => le_trans (countK_bind_le _ _ _)
      (Nat.add_le_add (phDownBlock_countK _ _ _ _) (tdsDosingBlock_countK _ _ _ _))
  have t5 : ∀ s : Controller,
      countK k ((phUpBlock fails now s).bind (fun s =>
        (phDownBlock fails now s).bind (fun s => tdsDosingBlock fails now s))).evs ≤
        bnd 3 k + (bnd 2 k + (bnd 1 k + bnd 1 k)) :=
    fun s => le_trans (countK_bind_le _ _ _)
      (Nat.add_le_add (phUpBlock_countK _ _ _ _) (t6 _))
  have t4 : ∀ s : Controller,
      countK k ((lightsBlock fails now hour s).bind (fun s =>
        (phUpBlock fails now s).bind (fun s =>
        (phDownBlock fails now s).bind (fun s => tdsDosingBlock fails now s)))).evs ≤
        (bnd 6 k + bnd 8 k) + (bnd 3 k + (bnd 2 k + (bnd 1 k + bnd 1 k))) :=
    fun s => le_trans (countK_bind_le _ _ _)
      (Nat.add_le_add (lightsBlock_countK _ _ _ _ _) (t5 _))
  have t3 : ∀ s : Controller,
      countK k ((exhaustBlock fails now hour s).bind (fun s =>
        (lightsBlock fails now hour s).bind (fun s =>
        (phUpBlock fails now s).bind (fun s =>
        (phDownBlock fails now s).bind (fun s => tdsDosingBlock fails now s))))).evs ≤
        (bnd 9 k + bnd 5 k) +
          ((bnd 6 k + bnd 8 k) + (bnd 3 k + (bnd 2 k + (bnd 1 k + bnd 1 k)))) :=
    fun s => le_trans (countK_bind_le _ _ _)
      (Nat.add_le_add (exhaustBlock_countK _ _ _ _ _) (t4 _))
  have t2 : ∀ s : Controller,
      countK k ((airPumpBlock fails now s).bind (fun s =>
        (exhaustBlock fails now hour s).bind (fun s =>
        (lightsBlock fails now hour s).bind (fun s =>
        (phUpBlock fails now s).bind (fun s =>
        (phDownBlock fails now s).bind (fun s => tdsDosingBlock fails now s)))))).evs ≤
        bnd 7 k + ((bnd 9 k + bnd 5 k) +
          ((bnd 6 k + bnd 8 k) + (bnd 3 k + (bnd 2 k + (bnd 1 k + bnd 1 k))))) :=
    fun s => le_trans (countK_bind_le _ _ _)
      (Nat.add_le_add (airPumpBlock_countK _ _ _ _) (t3 _))
  refine le_trans (le_trans (countK_bind_le _ _ _)
    (Nat.add_le_add (mistingBlock_countK _ _ _ _) (t2 _))) ?_
  simp only [bnd]
  split_ifs <;> omega

/-- The state right before the forced rule pass of an override exit:
every relay unknown with a zeroed debounce timer, override clear. -/
def resyncReset (st : Controller) : Controller :=
  { st with
    override_mode := false
    relays := fun r => { st.relays r with state := none, last_change := 0 } }

/-- An overridden controller whose TDS filter is ready at 600 ppm. -/
def tdsReadyLowCtrl : Controller :=
  { (feed Controller.init (List.replicate 5 { tds_ppm := some 600 })) with
    override_mode := true }

/-- C7 (counterexample): leaving override mode with the TDS filter ready
below 675 ppm asserts the nutrient valve (channel 1) to the driver
TWICE in the immediate rule pass — the initialization OFF of the
unknown state followed by the pulse ON — refuting "re-asserted to the
driver exactly once". -/
theorem override_exit_nutrient_double_assert :
    tdsReadyLowCtrl.override_mode = true ∧
    (setOverride noFail tdsReadyLowCtrl false 1000 3).2.filter
      (fun e => decide (e.1 = 1)) = [(1, false), (1, true)] := by
  with_unfolding_all decide

/-- C7 (amended): on every transition out of override mode the
controller marks every actuator state unknown and zeroes its debounce
timer, then immediately runs one full rule pass from that reset state
(outside the tick cadence); in that pass each actuator is asserted to
the driver at most once — except the nutrient valve, which can be
asserted twice (initialization OFF, then pulse ON). -/
theorem override_exit_resync :
    ∀ (st : Controller) (now : ℚ) (hour : Nat),
      st.override_mode = true →
      (∀ r : RName, ((resyncReset st).relays r).state = none ∧
        ((resyncReset st).relays r).last_change = 0 ∧
        (resyncReset st).override_mode = false) ∧
      setOverride noFail st false now hour =
        ((processAutomation noFail (resyncReset st) now hour).st,
         (processAutomation noFail (resyncReset st) now hour).evs) ∧
      (∀ k : Nat, countK k (setOverride noFail st false now hour).2 ≤
        if 1 = k then 2 else 1) := by
  intro st now hour hov
  have heq : setOverride noFail st false now hour =
      ((processAutomation noFail (resyncReset st) now hour).st,
       (processAutomation noFail (resyncReset st) now hour).evs) := by
    unfold setOverride
    rw [if_pos ⟨hov, rfl⟩]
    rfl
  refine ⟨fun r => ⟨rfl, rfl, rfl⟩, heq, ?_⟩
  intro k
  rw [heq]
  exact processAutomation_countK k noFail (resyncReset st) now hour

/-- C7 (witness): concrete override exit at the TDS-ready controller —
override clears and the nutrient valve is asserted at most twice. -/
theorem override_exit_resync_witness :
    (setOverride noFail tdsReadyLowCtrl false 1000 3).1.override_mode = false ∧
    countK 1 (setOverride noFail tdsReadyLowCtrl false 1000 3).2 ≤ 2 := by
  have h := override_exit_resync tdsReadyLowCtrl 1000 3 rfl
  constructor
  · with_unfolding_all decide
  · simpa using h.2.2 1

end Siboltech
